import Mathlib

/-!
Shallow embedding of the resilient connection and retry layer of the
personal-assistant backend:

* `src/utils/retry.py` — `retry_with_backoff` (async and sync wrappers),
  `RetryError`, and the convenience decorator `retry_on_network_error`;
* `src/memory/database.py` — `Database.connect`, the transaction context
  manager `TransactionContext.__aexit__`, and the global registry
  `get_database` / `init_database`;
* `src/memory/cache.py` — `Cache.connect`, the key-value operations
  `get`/`set`/`delete`/`exists`/`get_json`/`set_json`/`increment`/
  `expire`/`keys`/`flush`, and `get_cache` / `init_cache`.

Python floats are embedded as rationals (all delay arithmetic in the claims
is exact), exceptions as an abstract type `ε` together with a membership
predicate for the decorator's `exceptions` tuple, and `random.random()` as
an externally supplied stream of draws in `[0, 1)`.
-/

namespace Agent

/-- The keyword parameters of `retry_with_backoff` (`src/utils/retry.py`,
lines 21-28): `max_retries`, `initial_delay`, `max_delay`,
`exponential_base`, `jitter`.  The `exceptions` tuple is embedded
separately as a predicate `caught : ε → Bool`. -/
structure Policy where
  max_retries : Nat
  initial_delay : ℚ
  max_delay : ℚ
  exponential_base : ℚ
  jitter : Bool
deriving Repr, DecidableEq

/-- How a call to the decorated function terminates.  The first three
constructors correspond to exits from inside the `for attempt in
range(max_retries + 1)` loop; the last two correspond to the fall-through
code after the loop (`retry.py` lines 93-96 / 142-145): re-raising
`last_exception`, or `raise RetryError("Retry logic failed unexpectedly")`. -/
inductive Term (ε α : Type) where
  /-- `return await func(...)` / `return func(...)`: success. -/
  | returned (v : α)
  /-- an exception not matched by the `except exceptions` clause propagates. -/
  | raisedExc (e : ε)
  /-- `raise RetryError(...) from e` when `attempt >= max_retries`. -/
  | raisedRetryExhausted (cause : ε)
  /-- post-loop `raise last_exception`. -/
  | fellThroughLastExc (e : ε)
  /-- post-loop `raise RetryError("Retry logic failed unexpectedly")`. -/
  | fellThroughRetryError
deriving Repr, DecidableEq

/-- `true` exactly on the post-loop exits (`retry.py` lines 93-96 / 142-145). -/
def Term.isFallThrough {ε α : Type} : Term ε α → Bool
  | .fellThroughLastExc _ => true
  | .fellThroughRetryError => true
  | _ => false

/-- `true` exactly on `Term.returned`. -/
def Term.isReturned {ε α : Type} : Term ε α → Bool
  | .returned _ => true
  | _ => false

/-- Observable outcome of one call to a decorated function: how it
terminated, how many times the wrapped operation was invoked, and the
delays slept between attempts, in order. -/
structure Outcome (ε α : Type) where
  term : Term ε α
  attempts : Nat
  delays : List ℚ
deriving Repr, DecidableEq

/-- The delay computed for a failing attempt (`retry.py` lines 71-79 /
118-126): `delay = min(initial_delay * exponential_base**attempt,
max_delay)`, then, if `jitter`, `delay = delay * (0.5 + random.random())`
where `r` is the draw of `random.random()`. -/
def computeDelay (p : Policy) (attempt : Nat) (r : ℚ) : ℚ :=
  let delay := min (p.initial_delay * p.exponential_base ^ attempt) p.max_delay
  if p.jitter then delay * (1/2 + r) else delay

/-- The attempt loop of `async_wrapper` (`retry.py` lines 52-96).
`op k` is the result of the `k`-th invocation of the wrapped coroutine,
`caught e` decides membership in the decorator's `exceptions` tuple,
`rand k` is the `random.random()` draw consumed after a failing attempt
`k`.  `remaining` counts the iterations `range(max_retries + 1)` still to
run, so the `remaining = 0` case is the fall-through code after the loop. -/
def retryLoop {ε α : Type} (p : Policy) (op : Nat → Except ε α)
    (caught : ε → Bool) (rand : Nat → ℚ) :
    Nat → Nat → Option ε → List ℚ → Outcome ε α
  | attempt, 0, lastExc, delays =>
    match lastExc with
    | some e => ⟨.fellThroughLastExc e, attempt, delays⟩
    | none => ⟨.fellThroughRetryError, attempt, delays⟩
  | attempt, remaining + 1, lastExc, delays =>
    match op attempt with
    | .ok v => ⟨.returned v, attempt + 1, delays⟩
    | .error e =>
      if caught e then
        if p.max_retries ≤ attempt then
          ⟨.raisedRetryExhausted e, attempt + 1, delays⟩
        else
          retryLoop p op caught rand (attempt + 1) remaining (some e)
            (delays ++ [computeDelay p attempt (rand attempt)])
      else ⟨.raisedExc e, attempt + 1, delays⟩

/-- `async_wrapper` (`retry.py` lines 52-96): run the attempt loop from
attempt 0 with `last_exception = None`. -/
def async_wrapper {ε α : Type} (p : Policy) (op : Nat → Except ε α)
    (caught : ε → Bool) (rand : Nat → ℚ) : Outcome ε α :=
  retryLoop p op caught rand 0 (p.max_retries + 1) none []

/-- The attempt loop of `sync_wrapper` (`retry.py` lines 99-145), embedded
separately from the async loop because the source spells the two bodies
out separately (`time.sleep` instead of `await asyncio.sleep`; the sleep
effect itself is erased by the embedding, only the slept durations are
recorded). -/
def syncRetryLoop {ε α : Type} (p : Policy) (op : Nat → Except ε α)
    (caught : ε → Bool) (rand : Nat → ℚ) :
    Nat → Nat → Option ε → List ℚ → Outcome ε α
  | attempt, 0, lastExc, delays =>
    match lastExc with
    | some e => ⟨.fellThroughLastExc e, attempt, delays⟩
    | none => ⟨.fellThroughRetryError, attempt, delays⟩
  | attempt, remaining + 1, lastExc, delays =>
    match op attempt with
    | .ok v => ⟨.returned v, attempt + 1, delays⟩
    | .error e =>
      if caught e then
        if p.max_retries ≤ attempt then
          ⟨.raisedRetryExhausted e, attempt + 1, delays⟩
        else
          syncRetryLoop p op caught rand (attempt + 1) remaining (some e)
            (delays ++ [computeDelay p attempt (rand attempt)])
      else ⟨.raisedExc e, attempt + 1, delays⟩

/-- `sync_wrapper` (`retry.py` lines 99-145). -/
def sync_wrapper {ε α : Type} (p : Policy) (op : Nat → Except ε α)
    (caught : ε → Bool) (rand : Nat → ℚ) : Outcome ε α :=
  syncRetryLoop p op caught rand 0 (p.max_retries + 1) none []

/-- The attempt loop of `async_wrapper` when the wrapped operation is a
method mutating its object (as in `Database.connect` / `Cache.connect`):
the same source lines (`retry.py` 52-96) with the object state `σ`
threaded through the invocations.  `op k s` returns the state after the
`k`-th invocation together with its result. -/
def retryLoopS {ε α σ : Type} (p : Policy) (op : Nat → σ → σ × Except ε α)
    (caught : ε → Bool) (rand : Nat → ℚ) :
    Nat → Nat → Option ε → List ℚ → σ → σ × Outcome ε α
  | attempt, 0, lastExc, delays, s =>
    match lastExc with
    | some e => (s, ⟨.fellThroughLastExc e, attempt, delays⟩)
    | none => (s, ⟨.fellThroughRetryError, attempt, delays⟩)
  | attempt, remaining + 1, lastExc, delays, s =>
    match op attempt s with
    | (s', .ok v) => (s', ⟨.returned v, attempt + 1, delays⟩)
    | (s', .error e) =>
      if caught e then
        if p.max_retries ≤ attempt then
          (s', ⟨.raisedRetryExhausted e, attempt + 1, delays⟩)
        else
          retryLoopS p op caught rand (attempt + 1) remaining (some e)
            (delays ++ [computeDelay p attempt (rand attempt)]) s'
      else (s', ⟨.raisedExc e, attempt + 1, delays⟩)

/-- `async_wrapper` applied to a state-mutating method (`retry.py` 52-96). -/
def retryWithBackoffS {ε α σ : Type} (p : Policy) (op : Nat → σ → σ × Except ε α)
    (caught : ε → Bool) (rand : Nat → ℚ) (s : σ) : σ × Outcome ε α :=
  retryLoopS p op caught rand 0 (p.max_retries + 1) none [] s

/-- The policy built by `retry_on_network_error(max_retries=3,
initial_delay=1.0)` (`retry.py` lines 158-179) as used by
`Database.connect` and `Cache.connect`: `max_delay`, `exponential_base`
and `jitter` keep the `retry_with_backoff` defaults `60.0`, `2.0`, `True`. -/
def networkPolicy : Policy :=
  { max_retries := 3, initial_delay := 1, max_delay := 60
    exponential_base := 2, jitter := true }

/-! ## `Database.connect` (`src/memory/database.py` lines 21-59)

The manager's mutable state is `self.pool : Optional[asyncpg.Pool]`,
embedded as `Option H` for an abstract pool-handle type `H`, together
with a ghost counter of completed `asyncpg.create_pool` constructions.
One attempt of the body interacts with the network twice: the
`asyncpg.create_pool(...)` call and the liveness probe
(`conn.fetchval("SELECT version()")`); each attempt's outcomes of those
two calls are supplied by the environment. -/

/-- Environment of one invocation of the `Database.connect` body: the
result of `asyncpg.create_pool` and, if a pool was produced, the result
of the `SELECT version()` probe. -/
structure DbConnectEnv (ε H : Type) where
  createResult : Except ε H
  probeResult : Except ε Unit
deriving Repr

/-- Manager state: the `self.pool` field plus a ghost count of completed
pool constructions (used to state idempotence). -/
structure DbState (H : Type) where
  pool : Option H
  creations : Nat
deriving Repr, DecidableEq

/-- One invocation of the (undecorated) `Database.connect` body
(`database.py` lines 25-59): if `self.pool is not None`, log a warning
and return; otherwise assign `self.pool = await asyncpg.create_pool(...)`
(the assignment happens only when construction succeeds, but it happens
BEFORE the probe), then probe; the `except` clause logs and re-raises
without unsetting `self.pool`. -/
def databaseConnectBody {ε H : Type} (env : DbConnectEnv ε H) (s : DbState H) :
    DbState H × Except ε Unit :=
  match s.pool with
  | some _ => (s, .ok ())
  | none =>
    match env.createResult with
    | .error e => (s, .error e)
    | .ok h =>
      match env.probeResult with
      | .error e => (⟨some h, s.creations + 1⟩, .error e)
      | .ok _ => (⟨some h, s.creations + 1⟩, .ok ())

/-- The decorated `Database.connect` (`database.py` line 24:
`@retry_on_network_error(max_retries=3, initial_delay=1.0)`): the body
run through the retry executor under `networkPolicy`.  `isNet` decides
membership in the network-error exception tuple, `envs k` is the
environment seen by the `k`-th invocation. -/
def Database.connect {ε H : Type} (isNet : ε → Bool)
    (envs : Nat → DbConnectEnv ε H) (rand : Nat → ℚ) (s : DbState H) :
    DbState H × Outcome ε Unit :=
  retryWithBackoffS networkPolicy (fun k s => databaseConnectBody (envs k) s)
    isNet rand s

/-! ## `Cache.connect` (`src/memory/cache.py` lines 21-58)

Same shape as `Database.connect`: `self.client : Optional[Redis]`
embedded as `Option C`; one body attempt calls `redis.from_url` (its
result assigned to `self.client` on success), then probes with
`self.client.ping()` and `self.client.info("server")`. -/

/-- Environment of one invocation of the `Cache.connect` body. -/
structure CacheConnectEnv (ε C : Type) where
  fromUrlResult : Except ε C
  pingResult : Except ε Unit
  infoResult : Except ε Unit
deriving Repr

/-- Manager state: the `self.client` field plus a ghost count of completed
client constructions. -/
structure CacheState (C : Type) where
  client : Option C
  creations : Nat
deriving Repr, DecidableEq

/-- One invocation of the (undecorated) `Cache.connect` body
(`cache.py` lines 28-58). -/
def cacheConnectBody {ε C : Type} (env : CacheConnectEnv ε C) (s : CacheState C) :
    CacheState C × Except ε Unit :=
  match s.client with
  | some _ => (s, .ok ())
  | none =>
    match env.fromUrlResult with
    | .error e => (s, .error e)
    | .ok c =>
      match env.pingResult with
      | .error e => (⟨some c, s.creations + 1⟩, .error e)
      | .ok _ =>
        match env.infoResult with
        | .error e => (⟨some c, s.creations + 1⟩, .error e)
        | .ok _ => (⟨some c, s.creations + 1⟩, .ok ())

/-- The decorated `Cache.connect` (`cache.py` line 27). -/
def Cache.connect {ε C : Type} (isNet : ε → Bool)
    (envs : Nat → CacheConnectEnv ε C) (rand : Nat → ℚ) (s : CacheState C) :
    CacheState C × Outcome ε Unit :=
  retryWithBackoffS networkPolicy (fun k s => cacheConnectBody (envs k) s)
    isNet rand s

/-! ## `TransactionContext.__aexit__` (`src/memory/database.py` lines 172-189)

```
async def __aexit__(self, exc_type, exc_val, exc_tb):
    try:
        if exc_type is None:
            await self.trans.commit()
        else:
            await self.trans.rollback()
    finally:
        await self.pool.release(self.conn)
```
The transaction's state and the commit/rollback/release calls on the
backend are abstracted: each call's result (success or raised error) is
supplied by the environment, and the transaction's state moves to
`committed` / `rolledBack` exactly when the corresponding call succeeds. -/

/-- Transaction states. -/
inductive TxState where
  | active
  | committed
  | rolledBack
deriving Repr, DecidableEq

/-- Outcomes of the backend calls `__aexit__` may perform. -/
structure AexitEnv (ε : Type) where
  commitResult : Except ε Unit
  rollbackResult : Except ε Unit
  releaseResult : Except ε Unit
deriving Repr

/-- Observable trace of one `__aexit__` run: which of commit/rollback was
attempted, whether `pool.release(conn)` was attempted, the transaction's
final state, and the error raised by `__aexit__` itself (if any). -/
structure AexitTrace (ε : Type) where
  commitAttempted : Bool
  rollbackAttempted : Bool
  releaseAttempted : Bool
  txState : TxState
  raised : Option ε
deriving Repr, DecidableEq

/-- `TransactionContext.__aexit__` (`database.py` lines 182-189).
`excType = none` means the caller's block exited normally.  The `finally`
clause runs `pool.release` whether or not the `try` body raised; an error
raised by `release` replaces the pending one (Python's `finally`
semantics). -/
def TransactionContext.aexit {ε : Type} (excType : Option Unit)
    (env : AexitEnv ε) : AexitTrace ε :=
  let tryStep : TxState × Option ε × Bool × Bool :=
    match excType with
    | none =>
      match env.commitResult with
      | .ok _ => (.committed, none, true, false)
      | .error e => (.active, some e, true, false)
    | some _ =>
      match env.rollbackResult with
      | .ok _ => (.rolledBack, none, false, true)
      | .error e => (.active, some e, false, true)
  match tryStep with
  | (tx, pending, cA, rA) =>
    match env.releaseResult with
    | .ok _ => ⟨cA, rA, true, tx, pending⟩
    | .error e => ⟨cA, rA, true, tx, some e⟩

/-! ## Global registry (`database.py` lines 194-228, `cache.py` lines 281-315)

`_db` / `_cache` are module-level `Optional` slots.  `get_database()`
constructs and STORES a fresh instance when the slot is empty, then
returns the stored instance; `init_database()` calls `get_database()` and
then `connect()` on the returned (aliased) instance.  The registry slot
and the returned instance are the same object, so mutations by `connect`
are visible through the slot. -/

/-- `get_database` (`database.py` lines 198-208): returns the slot's new
content and the returned instance (they alias). -/
def get_database {H : Type} (reg : Option (DbState H)) :
    Option (DbState H) × DbState H :=
  match reg with
  | some db => (some db, db)
  | none => (some ⟨none, 0⟩, ⟨none, 0⟩)

/-- `init_database` (`database.py` lines 211-220): `db = get_database()`,
`await db.connect()`, `return db`.  Returns the registry slot after the
call, the returned instance, and the connect outcome (whose `term` is the
error propagated, if any). -/
def init_database {ε H : Type} (isNet : ε → Bool)
    (envs : Nat → DbConnectEnv ε H) (rand : Nat → ℚ)
    (reg : Option (DbState H)) :
    Option (DbState H) × DbState H × Outcome ε Unit :=
  let db := (get_database reg).2
  match Database.connect isNet envs rand db with
  | (db', out) => (some db', db', out)

/-- `get_cache` (`cache.py` lines 285-295). -/
def get_cache {C : Type} (reg : Option (CacheState C)) :
    Option (CacheState C) × CacheState C :=
  match reg with
  | some c => (some c, c)
  | none => (some ⟨none, 0⟩, ⟨none, 0⟩)

/-- `init_cache` (`cache.py` lines 298-307). -/
def init_cache {ε C : Type} (isNet : ε → Bool)
    (envs : Nat → CacheConnectEnv ε C) (rand : Nat → ℚ)
    (reg : Option (CacheState C)) :
    Option (CacheState C) × CacheState C × Outcome ε Unit :=
  let c := (get_cache reg).2
  match Cache.connect isNet envs rand c with
  | (c', out) => (some c', c', out)

/-! ## `Cache` key-value operations (`src/memory/cache.py` lines 69-278)

Each operation first checks `self.client is None` (raising
`RuntimeError("Cache not connected")`), then performs its backend call(s)
inside `try: ... except Exception:` returning a safe default on failure.
The backend call results are supplied by the environment: `ε` is the
type of errors the backend may raise, `J` an abstract JSON-value type,
`δ` the `json.JSONDecodeError` type, `τ` the `TypeError`/`ValueError`
type raised by `json.dumps`.  A Lean result `.error .notConnected`
embeds the uncaught `RuntimeError`; every other exit is a `return`. -/

/-- The one error a connected-state-checked cache operation can raise:
`RuntimeError("Cache not connected")`. -/
inductive CacheErr where
  | notConnected
deriving Repr, DecidableEq

/-- `Cache.get` (`cache.py` lines 69-86). -/
def Cache.get {ε C : Type} (client : Option C)
    (backendGet : Except ε (Option String)) :
    Except CacheErr (Option String) :=
  match client with
  | none => .error .notConnected
  | some _ =>
    match backendGet with
    | .ok v => .ok v
    | .error _ => .ok none

/-- `Cache.set` (`cache.py` lines 88-116).  `if ttl:` is Python
truthiness: `setex` is called only when `ttl` is a nonzero integer. -/
def Cache.set {ε C : Type} (client : Option C) (ttl : Option ℤ)
    (backendSetex backendSet : Except ε Unit) : Except CacheErr Bool :=
  match client with
  | none => .error .notConnected
  | some _ =>
    let call := match ttl with
      | some t => if t ≠ 0 then backendSetex else backendSet
      | none => backendSet
    match call with
    | .ok _ => .ok true
    | .error _ => .ok false

/-- `Cache.delete` (`cache.py` lines 118-136): `result > 0` on success. -/
def Cache.delete {ε C : Type} (client : Option C)
    (backendDelete : Except ε ℤ) : Except CacheErr Bool :=
  match client with
  | none => .error .notConnected
  | some _ =>
    match backendDelete with
    | .ok n => .ok (0 < n)
    | .error _ => .ok false

/-- `Cache.exists` (`cache.py` lines 138-155). -/
def Cache.exists {ε C : Type} (client : Option C)
    (backendExists : Except ε ℤ) : Except CacheErr Bool :=
  match client with
  | none => .error .notConnected
  | some _ =>
    match backendExists with
    | .ok n => .ok (0 < n)
    | .error _ => .ok false

/-- `Cache.get_json` (`cache.py` lines 157-175): `self.get(key)` (NOT
inside the try), then `json.loads` with only `JSONDecodeError` caught. -/
def Cache.get_json {ε δ C J : Type} (client : Option C)
    (backendGet : Except ε (Option String)) (loads : String → Except δ J) :
    Except CacheErr (Option J) :=
  match Cache.get client backendGet with
  | .error err => .error err
  | .ok none => .ok none
  | .ok (some s) =>
    match loads s with
    | .ok j => .ok (some j)
    | .error _ => .ok none

/-- `Cache.set_json` (`cache.py` lines 177-199): `json.dumps` then
`self.set`, with `(TypeError, ValueError)` caught around both.  `self.set`
raises only the `RuntimeError` (when not connected), which those clauses
do not catch. -/
def Cache.set_json {ε τ C J : Type} (client : Option C) (ttl : Option ℤ)
    (dumps : Except τ String) (backendSetex backendSet : Except ε Unit) :
    Except CacheErr Bool :=
  match dumps with
  | .error _ => .ok false
  | .ok _ => Cache.set client ttl backendSetex backendSet

/-- `Cache.increment` (`cache.py` lines 201-219). -/
def Cache.increment {ε C : Type} (client : Option C)
    (backendIncrby : Except ε ℤ) : Except CacheErr ℤ :=
  match client with
  | none => .error .notConnected
  | some _ =>
    match backendIncrby with
    | .ok n => .ok n
    | .error _ => .ok 0

/-- `Cache.expire` (`cache.py` lines 221-239). -/
def Cache.expire {ε C : Type} (client : Option C)
    (backendExpire : Except ε Bool) : Except CacheErr Bool :=
  match client with
  | none => .error .notConnected
  | some _ =>
    match backendExpire with
    | .ok b => .ok b
    | .error _ => .ok false

/-- `Cache.keys` (`cache.py` lines 241-258). -/
def Cache.keys {ε C : Type} (client : Option C)
    (backendKeys : Except ε (List String)) : Except CacheErr (List String) :=
  match client with
  | none => .error .notConnected
  | some _ =>
    match backendKeys with
    | .ok l => .ok l
    | .error _ => .ok []

/-- `Cache.flush` (`cache.py` lines 260-278). -/
def Cache.flush {ε C : Type} (client : Option C)
    (backendFlushdb : Except ε Unit) : Except CacheErr Bool :=
  match client with
  | none => .error .notConnected
  | some _ =>
    match backendFlushdb with
    | .ok _ => .ok true
    | .error _ => .ok false

/-! # Theorems -/

/-- Helper: if every attempt up to the budget fails with a caught
exception, the loop ends in the in-loop exhaustion raise, with one delay
per attempt index it retried past. -/
theorem retryLoop_allFail {ε α : Type} (p : Policy) (op : Nat → Except ε α)
    (caught : ε → Bool) (rand : Nat → ℚ) (e : Nat → ε)
    (hop : ∀ k, k ≤ p.max_retries → op k = Except.error (e k))
    (hc : ∀ k, k ≤ p.max_retries → caught (e k) = true) :
    ∀ remaining attempt lastExc delays,
      attempt + remaining = p.max_retries + 1 → 1 ≤ remaining →
      retryLoop p op caught rand attempt remaining lastExc delays =
        ⟨Term.raisedRetryExhausted (e p.max_retries), p.max_retries + 1,
          delays ++ (List.range' attempt (p.max_retries - attempt)).map
            (fun i => computeDelay p i (rand i))⟩ := by
  intro remaining
  induction remaining with
  | zero => intro attempt lastExc delays _ h1; omega
  | succ r ih =>
    intro attempt lastExc delays hsum _
    have hatt : attempt ≤ p.max_retries := by omega
    rw [retryLoop, hop attempt hatt]
    simp only [hc attempt hatt, if_true]
    by_cases hmax : p.max_retries ≤ attempt
    · have heq : attempt = p.max_retries := le_antisymm hatt hmax
      subst heq
      simp [hmax]
    · simp only [if_neg hmax]
      rw [ih (attempt + 1) (some (e attempt)) _ (by omega) (by omega)]
      have hsub : p.max_retries - attempt = (p.max_retries - (attempt + 1)) + 1 := by
        omega
      rw [hsub, List.range'_succ]
      simp

/-- C1: with maxRetries = n, an operation whose first n+1 invocations all
fail with a caught (retryable) exception makes the wrapper raise
RetryError from the last failure (never return a value), after exactly
n+1 attempts, with one computed delay per attempt index 0..n-1 (so n
delays); in particular n = 3 gives 4 attempts and 3 delays, wrapping the
4th failure. -/
theorem c1_retry_exhausted_wraps_last {ε α : Type} (p : Policy)
    (op : Nat → Except ε α) (caught : ε → Bool) (rand : Nat → ℚ) (e : Nat → ε)
    (hop : ∀ k, k ≤ p.max_retries → op k = Except.error (e k))
    (hc : ∀ k, k ≤ p.max_retries → caught (e k) = true) :
    async_wrapper p op caught rand =
      ⟨Term.raisedRetryExhausted (e p.max_retries), p.max_retries + 1,
        (List.range p.max_retries).map (fun i => computeDelay p i (rand i))⟩ := by
  rw [async_wrapper,
    retryLoop_allFail p op caught rand e hop hc (p.max_retries + 1) 0 none []
      (by omega) (by omega)]
  simp [List.range_eq_range']

/-- Witness for C1 at maxRetries = 3, jitter off: the wrapper raises the
exhaustion error after exactly 4 attempts and the 3 delays 1, 2, 4. -/
theorem c1_retry_exhausted_wraps_last_witness :
    async_wrapper ⟨3, 1, 60, 2, false⟩
        (fun _ => (Except.error () : Except Unit Unit)) (fun _ => true)
        (fun _ => 0) =
      ⟨Term.raisedRetryExhausted (), 4, [1, 2, 4]⟩ := by
  rw [c1_retry_exhausted_wraps_last ⟨3, 1, 60, 2, false⟩
    (fun _ => (Except.error () : Except Unit Unit)) (fun _ => true) (fun _ => 0)
    (fun _ => ()) (fun _ _ => rfl) (fun _ _ => rfl)]
  norm_num [computeDelay, List.range_succ]

/-- Helper: if attempts 0..n-1 fail with caught exceptions and attempt n
succeeds with v (n within budget), the loop returns v after n+1 attempts
with one delay per failed attempt. -/
theorem retryLoop_failThenSucceed {ε α : Type} (p : Policy)
    (op : Nat → Except ε α) (caught : ε → Bool) (rand : Nat → ℚ) (e : Nat → ε)
    (n : Nat) (v : α) (hn : n ≤ p.max_retries)
    (hop : ∀ k, k < n → op k = Except.error (e k))
    (hc : ∀ k, k < n → caught (e k) = true)
    (hsucc : op n = Except.ok v) :
    ∀ remaining attempt lastExc delays,
      attempt + remaining = p.max_retries + 1 → attempt ≤ n →
      retryLoop p op caught rand attempt remaining lastExc delays =
        ⟨Term.returned v, n + 1,
          delays ++ (List.range' attempt (n - attempt)).map
            (fun i => computeDelay p i (rand i))⟩ := by
  intro remaining
  induction remaining with
  | zero => intro attempt lastExc delays hsum hle; omega
  | succ r ih =>
    intro attempt lastExc delays hsum hle
    by_cases heq : attempt = n
    · subst heq
      rw [retryLoop, hsucc]
      simp
    · have hlt : attempt < n := by omega
      rw [retryLoop, hop attempt hlt]
      simp only [hc attempt hlt, if_true]
      have hnotmax : ¬ p.max_retries ≤ attempt := by omega
      simp only [if_neg hnotmax]
      rw [ih (attempt + 1) (some (e attempt)) _ (by omega) (by omega)]
      have hsub : n - attempt = (n - (attempt + 1)) + 1 := by omega
      rw [hsub, List.range'_succ]
      simp

/-- C2: with jitter disabled, an operation failing retryably on its first
n invocations (n within the budget) and succeeding on invocation n makes
the wrapper return the success value after exactly n+1 attempts, the
delay slept after failing attempt i being exactly
min(initialDelay * exponentialBase^i, maxDelay); the witness checks the
spec's instance maxRetries = 3, delays [1.0, 2.0, 4.0]. -/
theorem c2_success_value_and_exact_delays {ε α : Type} (p : Policy)
    (op : Nat → Except ε α) (caught : ε → Bool) (rand : Nat → ℚ) (e : Nat → ε)
    (n : Nat) (v : α) (hjit : p.jitter = false) (hn : n ≤ p.max_retries)
    (hop : ∀ k, k < n → op k = Except.error (e k))
    (hc : ∀ k, k < n → caught (e k) = true)
    (hsucc : op n = Except.ok v) :
    async_wrapper p op caught rand =
      ⟨Term.returned v, n + 1,
        (List.range n).map
          (fun i => min (p.initial_delay * p.exponential_base ^ i) p.max_delay)⟩ := by
  rw [async_wrapper,
    retryLoop_failThenSucceed p op caught rand e n v hn hop hc hsucc
      (p.max_retries + 1) 0 none [] (by omega) (by omega)]
  simp [List.range_eq_range', computeDelay, hjit]

/-- Witness for C2 at the spec's policy maxRetries = 3, initialDelay = 1,
base = 2, jitter off: 3 failures then success returns the value after 4
attempts with delays exactly [1, 2, 4]. -/
theorem c2_success_value_and_exact_delays_witness :
    async_wrapper ⟨3, 1, 60, 2, false⟩
        (fun k => if k < 3 then (Except.error () : Except Unit Nat)
                  else Except.ok 7)
        (fun _ => true) (fun _ => 0) =
      ⟨Term.returned 7, 4, [1, 2, 4]⟩ := by
  rw [c2_success_value_and_exact_delays ⟨3, 1, 60, 2, false⟩
    (fun k => if k < 3 then (Except.error () : Except Unit Nat) else Except.ok 7)
    (fun _ => true) (fun _ => 0) (fun _ => ()) 3 7 rfl (by decide)
    (fun k hk => by simp [hk]) (fun _ _ => rfl) (by norm_num)]
  norm_num [List.range_succ]

/-- C3 as written is false: the code multiplies the deterministic delay
by 0.5 + random(), a factor in [0.5, 1.5), not [0.5, 1.0).  With the
valid draw r = 3/5 the slept delay for attempt 0 under
{initialDelay = 1, base = 2, maxDelay = 60, jitter = on} is 11/10, while
the unjittered delay is min(1 * 2^0, 60) = 1, so the jittered delay is
NOT below 1.0 times the unjittered one. -/
theorem c3_jitter_factor_counterexample :
    (0 : ℚ) ≤ 3/5 ∧ (3/5 : ℚ) < 1 ∧
    (async_wrapper ⟨3, 1, 60, 2, true⟩
        (fun k => if k = 0 then (Except.error () : Except Unit Unit)
                  else Except.ok ())
        (fun _ => true) (fun _ => 3/5)).delays = [11/10] ∧
    min ((1 : ℚ) * 2 ^ 0) 60 = 1 ∧ ¬ ((11 : ℚ)/10 < 1 * 1) := by
  refine ⟨by norm_num, by norm_num, ?_, by norm_num, by norm_num⟩
  norm_num [async_wrapper, retryLoop, computeDelay]

/-- C3 (amended): with jitter enabled, every delay slept equals the
deterministic delay min(initialDelay * base^attempt, maxDelay) multiplied
by the factor 0.5 + r for the draw r, and for every draw in [0, 1) that
factor lies in [0.5, 1.5): each jittered delay is within [0.5x, 1.5x) of
its unjittered value (when that value is positive). -/
theorem c3_jitter_delay_range_amended (p : Policy) (attempt : Nat) (r : ℚ)
    (hj : p.jitter = true) (h0 : 0 ≤ r) (h1 : r < 1) :
    computeDelay p attempt r =
      min (p.initial_delay * p.exponential_base ^ attempt) p.max_delay
        * (1/2 + r) ∧
    (0 < min (p.initial_delay * p.exponential_base ^ attempt) p.max_delay →
      min (p.initial_delay * p.exponential_base ^ attempt) p.max_delay * (1/2)
          ≤ computeDelay p attempt r ∧
      computeDelay p attempt r <
        min (p.initial_delay * p.exponential_base ^ attempt) p.max_delay
          * (3/2)) := by
  have hval : computeDelay p attempt r =
      min (p.initial_delay * p.exponential_base ^ attempt) p.max_delay
        * (1/2 + r) := by
    simp [computeDelay, hj]
  refine ⟨hval, fun hu => ?_⟩
  rw [hval]
  constructor
  · nlinarith
  · nlinarith

/-- Witness for the amended C3 at attempt 0, draw 3/5 under the network
policy shape: the jittered delay is the unjittered one times 11/10, which
lies in [0.5x, 1.5x). -/
theorem c3_jitter_delay_range_amended_witness :
    computeDelay ⟨3, 1, 60, 2, true⟩ 0 (3/5) =
        min ((1 : ℚ) * 2 ^ 0) 60 * (1/2 + 3/5) ∧
    min ((1 : ℚ) * 2 ^ 0) 60 * (1/2) ≤ computeDelay ⟨3, 1, 60, 2, true⟩ 0 (3/5) ∧
    computeDelay ⟨3, 1, 60, 2, true⟩ 0 (3/5) <
      min ((1 : ℚ) * 2 ^ 0) 60 * (3/2) := by
  have h := c3_jitter_delay_range_amended ⟨3, 1, 60, 2, true⟩ 0 (3/5) rfl
    (by norm_num) (by norm_num)
  exact ⟨h.1, (h.2 (by norm_num)).1, (h.2 (by norm_num)).2⟩

/-- Helper: the sync attempt loop computes exactly what the async attempt
loop computes. -/
theorem syncRetryLoop_eq_retryLoop {ε α : Type} (p : Policy)
    (op : Nat → Except ε α) (caught : ε → Bool) (rand : Nat → ℚ) :
    ∀ remaining attempt lastExc delays,
      syncRetryLoop p op caught rand attempt remaining lastExc delays =
        retryLoop p op caught rand attempt remaining lastExc delays := by
  intro remaining
  induction remaining with
  | zero => intro attempt lastExc delays; cases lastExc <;> rfl
  | succ r ih =>
    intro attempt lastExc delays
    rw [syncRetryLoop, retryLoop]
    cases op attempt with
    | ok v => rfl
    | error e =>
      by_cases hcg : caught e
      · simp only [hcg, if_true]
        by_cases hm : p.max_retries ≤ attempt
        · simp [hm]
        · simp only [if_neg hm]
          exact ih (attempt + 1) (some e) _
      · simp [hcg]

/-- C9: the synchronous and asynchronous wrappers behave identically: for
every policy, every classification of exceptions, every sequence of
operation outcomes and every sequence of random draws they produce the
same termination (returned value or raised error), the same attempt
count, and the same sequence of computed delays. -/
theorem c9_sync_async_identical {ε α : Type} (p : Policy)
    (op : Nat → Except ε α) (caught : ε → Bool) (rand : Nat → ℚ) :
    async_wrapper p op caught rand = sync_wrapper p op caught rand := by
  rw [async_wrapper, sync_wrapper, syncRetryLoop_eq_retryLoop]

/-- Helper: starting inside the iteration range, the attempt loop never
reaches the post-loop fall-through code. -/
theorem retryLoop_no_fallThrough {ε α : Type} (p : Policy)
    (op : Nat → Except ε α) (caught : ε → Bool) (rand : Nat → ℚ) :
    ∀ remaining attempt lastExc delays,
      attempt + remaining = p.max_retries + 1 → 1 ≤ remaining →
      ((retryLoop p op caught rand attempt remaining lastExc
          delays).term).isFallThrough = false := by
  intro remaining
  induction remaining with
  | zero => intro attempt lastExc delays _ h1; omega
  | succ r ih =>
    intro attempt lastExc delays hsum _
    rw [retryLoop]
    cases op attempt with
    | ok v => rfl
    | error e =>
      by_cases hcg : caught e
      · simp only [hcg, if_true]
        by_cases hm : p.max_retries ≤ attempt
        · simp [hm, Term.isFallThrough]
        · simp only [if_neg hm]
          exact ih (attempt + 1) (some e) _ (by omega) (by omega)
      · simp [hcg, Term.isFallThrough]

/-- C10: for every retry budget, both wrappers terminate the attempt loop
from inside it — by returning the operation's value, propagating an
uncaught exception, or raising the exhaustion RetryError — so the
fall-through code after the loop (re-raising last_exception or raising
RetryError("Retry logic failed unexpectedly")) is unreachable. -/
theorem c10_fall_through_unreachable {ε α : Type} (p : Policy)
    (op : Nat → Except ε α) (caught : ε → Bool) (rand : Nat → ℚ) :
    ((async_wrapper p op caught rand).term).isFallThrough = false ∧
    ((sync_wrapper p op caught rand).term).isFallThrough = false := by
  constructor
  · exact retryLoop_no_fallThrough p op caught rand (p.max_retries + 1) 0 none []
      (by omega) (by omega)
  · rw [sync_wrapper, syncRetryLoop_eq_retryLoop]
    exact retryLoop_no_fallThrough p op caught rand (p.max_retries + 1) 0 none []
      (by omega) (by omega)

/-- C4: for every transaction scope exit, commit is attempted exactly on
normal exit and rollback exactly on exceptional exit (the transaction
reaching Committed resp. RolledBack when that call succeeds), and the
borrowed connection is released back to the pool in every case — release
is attempted even when the commit or rollback itself raises. -/
theorem c4_transaction_exit_semantics {ε : Type} (env : AexitEnv ε) :
    (∀ excType, (TransactionContext.aexit excType env).releaseAttempted = true) ∧
    ((TransactionContext.aexit (ε := ε) none env).commitAttempted = true ∧
      (TransactionContext.aexit (ε := ε) none env).rollbackAttempted = false) ∧
    (env.commitResult = Except.ok () →
      (TransactionContext.aexit none env).txState = TxState.committed) ∧
    ((TransactionContext.aexit (ε := ε) (some ()) env).rollbackAttempted = true ∧
      (TransactionContext.aexit (ε := ε) (some ()) env).commitAttempted = false) ∧
    (env.rollbackResult = Except.ok () →
      (TransactionContext.aexit (some ()) env).txState = TxState.rolledBack) := by
  obtain ⟨cr, rr, rel⟩ := env
  refine ⟨fun excType => ?_, ?_, ?_, ?_, ?_⟩
  · cases excType <;> cases cr <;> cases rr <;> cases rel <;> rfl
  · cases cr <;> cases rel <;> exact ⟨rfl, rfl⟩
  · intro h
    cases cr with
    | error e => exact absurd h (by simp)
    | ok u => cases rel <;> rfl
  · cases rr <;> cases rel <;> exact ⟨rfl, rfl⟩
  · intro h
    cases rr with
    | error e => exact absurd h (by simp)
    | ok u => cases rel <;> rfl

/-- Witness for C4: with all backend calls succeeding, normal exit
commits and releases, exceptional exit rolls back and releases; and with
a failing commit the release is still attempted. -/
theorem c4_transaction_exit_semantics_witness :
    (TransactionContext.aexit (ε := Unit) none
        ⟨Except.ok (), Except.ok (), Except.ok ()⟩).releaseAttempted = true ∧
    (TransactionContext.aexit (ε := Unit) (some ())
        ⟨Except.ok (), Except.ok (), Except.ok ()⟩).releaseAttempted = true ∧
    (TransactionContext.aexit (ε := Unit) none
        ⟨Except.ok (), Except.ok (), Except.ok ()⟩).txState = TxState.committed ∧
    (TransactionContext.aexit (ε := Unit) (some ())
        ⟨Except.ok (), Except.ok (), Except.ok ()⟩).txState = TxState.rolledBack ∧
    (TransactionContext.aexit (ε := Unit) none
        ⟨Except.error (), Except.ok (), Except.ok ()⟩).releaseAttempted = true := by
  have h1 := c4_transaction_exit_semantics (ε := Unit)
    ⟨Except.ok (), Except.ok (), Except.ok ()⟩
  have h2 := c4_transaction_exit_semantics (ε := Unit)
    ⟨Except.error (), Except.ok (), Except.ok ()⟩
  exact ⟨h1.1 none, h1.1 (some ()), h1.2.2.1 rfl, h1.2.2.2.2 rfl, h2.1 none⟩

/-- C7: every key-value operation invoked while the manager is connected
turns any backend error — and, for the JSON operations, any
serialization error — into its safe default return value (None for gets,
false for booleans, 0 for increment, the empty sequence for keys) instead
of propagating it. -/
theorem c7_cache_ops_swallow_errors {ε δ τ C J : Type} (c : C) (e : ε)
    (ttl : Option ℤ) (s : String) (d : δ) (t : τ)
    (loads : String → Except δ J) :
    Cache.get (some c) (Except.error (ε := ε) e) = Except.ok none ∧
    Cache.set (some c) ttl (Except.error e) (Except.error e) = Except.ok false ∧
    Cache.delete (some c) (Except.error (ε := ε) e) = Except.ok false ∧
    Cache.exists (some c) (Except.error (ε := ε) e) = Except.ok false ∧
    Cache.get_json (some c) (Except.error (ε := ε) e) loads = Except.ok none ∧
    Cache.get_json (some c) (Except.ok (ε := ε) (some s))
      (fun _ => (Except.error d : Except δ J)) = Except.ok none ∧
    Cache.set_json (ε := ε) (J := J) (some c) ttl (Except.error t)
      (Except.error e) (Except.error e) = Except.ok false ∧
    Cache.set_json (J := J) (τ := τ) (some c) ttl (Except.ok s)
      (Except.error e) (Except.error e) = Except.ok false ∧
    Cache.increment (some c) (Except.error (ε := ε) e) = Except.ok 0 ∧
    Cache.expire (some c) (Except.error (ε := ε) e) = Except.ok false ∧
    Cache.keys (some c) (Except.error (ε := ε) e) = Except.ok [] ∧
    Cache.flush (some c) (Except.error (ε := ε) e) = Except.ok false := by
  have hset : Cache.set (some c) ttl (Except.error e) (Except.error e) =
      Except.ok false := by
    cases ttl with
    | none => rfl
    | some t₀ =>
      by_cases h : t₀ ≠ 0 <;> simp [Cache.set, h]
  refine ⟨rfl, hset, rfl, rfl, rfl, rfl, rfl, ?_, rfl, rfl, rfl, rfl⟩
  simpa [Cache.set_json] using hset

/-- Helper: with the pool handle already set, the first loop iteration of
the decorated `Database.connect` no-ops: the state is untouched and the
call returns after one attempt with no delay. -/
theorem dbLoop_noop {ε H : Type} (isNet : ε → Bool)
    (envs : Nat → DbConnectEnv ε H) (rand : Nat → ℚ)
    (attempt remaining : Nat) (lastExc : Option ε) (delays : List ℚ)
    (h : H) (cnt : Nat) (hr : 1 ≤ remaining) :
    retryLoopS networkPolicy (fun k s => databaseConnectBody (envs k) s) isNet
        rand attempt remaining lastExc delays ⟨some h, cnt⟩ =
      (⟨some h, cnt⟩, ⟨Term.returned (), attempt + 1, delays⟩) := by
  cases remaining with
  | zero => omega
  | succ r => rfl

/-- Helper: with the client handle already set, the first loop iteration
of the decorated `Cache.connect` no-ops. -/
theorem cacheLoop_noop {ε K : Type} (isNet : ε → Bool)
    (envs : Nat → CacheConnectEnv ε K) (rand : Nat → ℚ)
    (attempt remaining : Nat) (lastExc : Option ε) (delays : List ℚ)
    (k : K) (cnt : Nat) (hr : 1 ≤ remaining) :
    retryLoopS networkPolicy (fun j s => cacheConnectBody (envs j) s) isNet
        rand attempt remaining lastExc delays ⟨some k, cnt⟩ =
      (⟨some k, cnt⟩, ⟨Term.returned (), attempt + 1, delays⟩) := by
  cases remaining with
  | zero => omega
  | succ r => rfl

/-- Helper: when the decorated `Database.connect` loop, started from an
unset pool handle, terminates with a returned value, exactly one pool
construction completed: the final state has the handle set and the
construction count incremented by one. -/
theorem dbLoop_success_creations {ε H : Type} (isNet : ε → Bool)
    (envs : Nat → DbConnectEnv ε H) (rand : Nat → ℚ) :
    ∀ remaining attempt lastExc delays cnt,
      attempt + remaining = networkPolicy.max_retries + 1 →
      (((retryLoopS networkPolicy (fun k s => databaseConnectBody (envs k) s)
          isNet rand attempt remaining lastExc delays
          ⟨none, cnt⟩).2.term).isReturned = true) →
      ∃ h : H,
        (retryLoopS networkPolicy (fun k s => databaseConnectBody (envs k) s)
          isNet rand attempt remaining lastExc delays ⟨none, cnt⟩).1 =
        ⟨some h, cnt + 1⟩ := by
  intro remaining
  induction remaining with
  | zero =>
    intro attempt lastExc delays cnt _ hret
    cases lastExc <;> simp [retryLoopS, Term.isReturned] at hret
  | succ r ih =>
    intro attempt lastExc delays cnt hsum hret
    rw [retryLoopS] at hret ⊢
    cases hcr : (envs attempt).createResult with
    | error e =>
      have hb : databaseConnectBody (envs attempt) (⟨none, cnt⟩ : DbState H) =
          (⟨none, cnt⟩, Except.error e) := by
        simp [databaseConnectBody, hcr]
      simp only [hb] at hret ⊢
      by_cases hnet : isNet e
      · simp only [hnet, if_true] at hret ⊢
        by_cases hm : networkPolicy.max_retries ≤ attempt
        · simp [hm, Term.isReturned] at hret
        · simp only [if_neg hm] at hret ⊢
          exact ih (attempt + 1) (some e) _ cnt (by omega) hret
      · simp [hnet, Term.isReturned] at hret
    | ok h =>
      cases hpr : (envs attempt).probeResult with
      | ok u =>
        have hb : databaseConnectBody (envs attempt) (⟨none, cnt⟩ : DbState H) =
            (⟨some h, cnt + 1⟩, Except.ok ()) := by
          simp [databaseConnectBody, hcr, hpr]
        simp only [hb] at hret ⊢
        exact ⟨h, rfl⟩
      | error e =>
        have hb : databaseConnectBody (envs attempt) (⟨none, cnt⟩ : DbState H) =
            (⟨some h, cnt + 1⟩, Except.error e) := by
          simp [databaseConnectBody, hcr, hpr]
        simp only [hb] at hret ⊢
        by_cases hnet : isNet e
        · simp only [hnet, if_true] at hret ⊢
          by_cases hm : networkPolicy.max_retries ≤ attempt
          · simp [hm, Term.isReturned] at hret
          · simp only [if_neg hm] at hret ⊢
            rw [dbLoop_noop isNet envs rand (attempt + 1) r _ _ h (cnt + 1)
              (by simp [networkPolicy] at hsum hm ⊢; omega)] at hret ⊢
            exact ⟨h, rfl⟩
        · simp [hnet, Term.isReturned] at hret

/-- Helper: cache counterpart of the previous lemma. -/
theorem cacheLoop_success_creations {ε K : Type} (isNet : ε → Bool)
    (envs : Nat → CacheConnectEnv ε K) (rand : Nat → ℚ) :
    ∀ remaining attempt lastExc delays cnt,
      attempt + remaining = networkPolicy.max_retries + 1 →
      (((retryLoopS networkPolicy (fun j s => cacheConnectBody (envs j) s)
          isNet rand attempt remaining lastExc delays
          ⟨none, cnt⟩).2.term).isReturned = true) →
      ∃ k : K,
        (retryLoopS networkPolicy (fun j s => cacheConnectBody (envs j) s)
          isNet rand attempt remaining lastExc delays ⟨none, cnt⟩).1 =
        ⟨some k, cnt + 1⟩ := by
  intro remaining
  induction remaining with
  | zero =>
    intro attempt lastExc delays cnt _ hret
    cases lastExc <;> simp [retryLoopS, Term.isReturned] at hret
  | succ r ih =>
    intro attempt lastExc delays cnt hsum hret
    rw [retryLoopS] at hret ⊢
    cases hcr : (envs attempt).fromUrlResult with
    | error e =>
      have hb : cacheConnectBody (envs attempt) (⟨none, cnt⟩ : CacheState K) =
          (⟨none, cnt⟩, Except.error e) := by
        simp [cacheConnectBody, hcr]
      simp only [hb] at hret ⊢
      by_cases hnet : isNet e
      · simp only [hnet, if_true] at hret ⊢
        by_cases hm : networkPolicy.max_retries ≤ attempt
        · simp [hm, Term.isReturned] at hret
        · simp only [if_neg hm] at hret ⊢
          exact ih (attempt + 1) (some e) _ cnt (by omega) hret
      · simp [hnet, Term.isReturned] at hret
    | ok k =>
      cases hpg : (envs attempt).pingResult with
      | ok u =>
        cases hif : (envs attempt).infoResult with
        | ok w =>
          have hb : cacheConnectBody (envs attempt)
              (⟨none, cnt⟩ : CacheState K) =
              (⟨some k, cnt + 1⟩, Except.ok ()) := by
            simp [cacheConnectBody, hcr, hpg, hif]
          simp only [hb] at hret ⊢
          exact ⟨k, rfl⟩
        | error e =>
          have hb : cacheConnectBody (envs attempt)
              (⟨none, cnt⟩ : CacheState K) =
              (⟨some k, cnt + 1⟩, Except.error e) := by
            simp [cacheConnectBody, hcr, hpg, hif]
          simp only [hb] at hret ⊢
          by_cases hnet : isNet e
          · simp only [hnet, if_true] at hret ⊢
            by_cases hm : networkPolicy.max_retries ≤ attempt
            · simp [hm, Term.isReturned] at hret
            · simp only [if_neg hm] at hret ⊢
              rw [cacheLoop_noop isNet envs rand (attempt + 1) r _ _ k (cnt + 1)
                (by simp [networkPolicy] at hsum hm ⊢; omega)] at hret ⊢
              exact ⟨k, rfl⟩
          · simp [hnet, Term.isReturned] at hret
      | error e =>
        have hb : cacheConnectBody (envs attempt)
            (⟨none, cnt⟩ : CacheState K) =
            (⟨some k, cnt + 1⟩, Except.error e) := by
          simp [cacheConnectBody, hcr, hpg]
        simp only [hb] at hret ⊢
        by_cases hnet : isNet e
        · simp only [hnet, if_true] at hret ⊢
          by_cases hm : networkPolicy.max_retries ≤ attempt
          · simp [hm, Term.isReturned] at hret
          · simp only [if_neg hm] at hret ⊢
            rw [cacheLoop_noop isNet envs rand (attempt + 1) r _ _ k (cnt + 1)
              (by simp [networkPolicy] at hsum hm ⊢; omega)] at hret ⊢
            exact ⟨k, rfl⟩
        · simp [hnet, Term.isReturned] at hret

/-- C8: for either manager, a connect() that succeeds from the fresh
(disconnected) state completes exactly one underlying pool/client
construction, and a second connect() call finds the handle set, returns
without error after a single attempt with no delay, performs no further
construction, and leaves the state unchanged. -/
theorem c8_connect_idempotent {ε H K : Type} (isNet : ε → Bool)
    (denvs denvs2 : Nat → DbConnectEnv ε H)
    (cenvs cenvs2 : Nat → CacheConnectEnv ε K) (rand rand2 : Nat → ℚ)
    (ds : DbState H) (dout : Outcome ε Unit)
    (cs : CacheState K) (cout : Outcome ε Unit)
    (hd : Database.connect isNet denvs rand ⟨none, 0⟩ = (ds, dout))
    (hdok : (dout.term).isReturned = true)
    (hc : Cache.connect isNet cenvs rand ⟨none, 0⟩ = (cs, cout))
    (hcok : (cout.term).isReturned = true) :
    ds.creations = 1 ∧
    Database.connect isNet denvs2 rand2 ds =
      (ds, ⟨Term.returned (), 1, []⟩) ∧
    cs.creations = 1 ∧
    Cache.connect isNet cenvs2 rand2 cs =
      (cs, ⟨Term.returned (), 1, []⟩) := by
  rw [Database.connect, retryWithBackoffS] at hd
  rw [Cache.connect, retryWithBackoffS] at hc
  obtain ⟨h, hdb⟩ := dbLoop_success_creations isNet denvs rand
    (networkPolicy.max_retries + 1) 0 none [] 0 (by omega)
    (by rw [hd]; exact hdok)
  obtain ⟨k, hcb⟩ := cacheLoop_success_creations isNet cenvs rand
    (networkPolicy.max_retries + 1) 0 none [] 0 (by omega)
    (by rw [hc]; exact hcok)
  rw [hd] at hdb
  rw [hc] at hcb
  simp only at hdb hcb
  subst hdb
  subst hcb
  refine ⟨rfl, ?_, rfl, ?_⟩
  · rw [Database.connect, retryWithBackoffS,
      dbLoop_noop isNet denvs2 rand2 0 (networkPolicy.max_retries + 1) none []
        h 1 (by omega)]
  · rw [Cache.connect, retryWithBackoffS,
      cacheLoop_noop isNet cenvs2 rand2 0 (networkPolicy.max_retries + 1) none []
        k 1 (by omega)]

/-- Witness for C8: with a first attempt whose construction and liveness
probe both succeed, the first connect sets the handle with one
construction and the second connect is a no-op returning after one
attempt with no delay. -/
theorem c8_connect_idempotent_witness :
    (Database.connect (fun _ => true)
        (fun _ => (⟨Except.ok 5, Except.ok ()⟩ : DbConnectEnv Unit Nat))
        (fun _ => 0) ⟨none, 0⟩).1.creations = 1 ∧
    Database.connect (fun _ => true)
        (fun _ => (⟨Except.ok 5, Except.ok ()⟩ : DbConnectEnv Unit Nat))
        (fun _ => 0)
        (Database.connect (fun _ => true)
          (fun _ => (⟨Except.ok 5, Except.ok ()⟩ : DbConnectEnv Unit Nat))
          (fun _ => 0) ⟨none, 0⟩).1 =
      ((Database.connect (fun _ => true)
          (fun _ => (⟨Except.ok 5, Except.ok ()⟩ : DbConnectEnv Unit Nat))
          (fun _ => 0) ⟨none, 0⟩).1, ⟨Term.returned (), 1, []⟩) ∧
    (Cache.connect (fun _ => true)
        (fun _ => (⟨Except.ok 9, Except.ok (), Except.ok ()⟩ :
          CacheConnectEnv Unit Nat))
        (fun _ => 0) ⟨none, 0⟩).1.creations = 1 ∧
    Cache.connect (fun _ => true)
        (fun _ => (⟨Except.ok 9, Except.ok (), Except.ok ()⟩ :
          CacheConnectEnv Unit Nat))
        (fun _ => 0)
        (Cache.connect (fun _ => true)
          (fun _ => (⟨Except.ok 9, Except.ok (), Except.ok ()⟩ :
            CacheConnectEnv Unit Nat))
          (fun _ => 0) ⟨none, 0⟩).1 =
      ((Cache.connect (fun _ => true)
          (fun _ => (⟨Except.ok 9, Except.ok (), Except.ok ()⟩ :
            CacheConnectEnv Unit Nat))
          (fun _ => 0) ⟨none, 0⟩).1, ⟨Term.returned (), 1, []⟩) := by
  have h := c8_connect_idempotent (fun _ => true)
    (fun _ => (⟨Except.ok 5, Except.ok ()⟩ : DbConnectEnv Unit Nat))
    (fun _ => (⟨Except.ok 5, Except.ok ()⟩ : DbConnectEnv Unit Nat))
    (fun _ => (⟨Except.ok 9, Except.ok (), Except.ok ()⟩ :
      CacheConnectEnv Unit Nat))
    (fun _ => (⟨Except.ok 9, Except.ok (), Except.ok ()⟩ :
      CacheConnectEnv Unit Nat))
    (fun _ => 0) (fun _ => 0) ⟨some 5, 1⟩ ⟨Term.returned (), 1, []⟩
    ⟨some 9, 1⟩ ⟨Term.returned (), 1, []⟩ rfl rfl rfl rfl
  have hd1 : (Database.connect (fun _ => true)
      (fun _ => (⟨Except.ok 5, Except.ok ()⟩ : DbConnectEnv Unit Nat))
      (fun _ => 0) ⟨none, 0⟩).1 = ⟨some 5, 1⟩ := rfl
  have hc1 : (Cache.connect (fun _ => true)
      (fun _ => (⟨Except.ok 9, Except.ok (), Except.ok ()⟩ :
        CacheConnectEnv Unit Nat))
      (fun _ => 0) ⟨none, 0⟩).1 = ⟨some 9, 1⟩ := rfl
  rw [hd1, hc1]
  exact ⟨h.1, h.2.1, h.2.2.1, h.2.2.2⟩

/-- C5 as written is false: `connect()` never unsets the handle on
failure.  With pool construction failing retryably on attempts 0-2 and
attempt 3 constructing a pool whose liveness probe then fails retryably,
the budget is exhausted and the error is raised to the caller, yet
`self.pool` remains set — the manager is left appearing Connected. -/
theorem c5_failed_connect_keeps_pool_counterexample :
    (Database.connect (fun _ => true)
        (fun k => if k < 3 then (⟨Except.error 0, Except.ok ()⟩ :
                      DbConnectEnv Nat Unit)
                  else ⟨Except.ok (), Except.error 1⟩)
        (fun _ => 0) ⟨none, 0⟩).2.term = Term.raisedRetryExhausted 1 ∧
    (Database.connect (fun _ => true)
        (fun k => if k < 3 then (⟨Except.error 0, Except.ok ()⟩ :
                      DbConnectEnv Nat Unit)
                  else ⟨Except.ok (), Except.error 1⟩)
        (fun _ => 0) ⟨none, 0⟩).1.pool ≠ none := by
  refine ⟨?_, ?_⟩
  · norm_num [Database.connect, retryWithBackoffS, retryLoopS,
      databaseConnectBody, networkPolicy, computeDelay]
  · norm_num [Database.connect, retryWithBackoffS, retryLoopS,
      databaseConnectBody, networkPolicy, computeDelay]
    decide

/-- C5 (amended): for both managers, when connect() exhausts its retry
budget the wrapped error is propagated to the caller after 4 attempts and
3 delays; the pool/client handle is still unset (the manager remains
Disconnected) when construction failed on the final attempt, but when
construction succeeded on the final attempt and only the liveness probe
failed, the handle remains set — a failed connect can leave the manager
appearing Connected; the state is never actively reset. -/
theorem c5_exhausted_connect_amended {ε H K : Type} (isNet : ε → Bool)
    (denvs : Nat → DbConnectEnv ε H) (cenvs : Nat → CacheConnectEnv ε K)
    (rand : Nat → ℚ) (e f : Nat → ε) (dcnt ccnt : Nat)
    (hdc : ∀ j, j < 3 → (denvs j).createResult = Except.error (e j))
    (hde : ∀ j, j ≤ 3 → isNet (e j) = true)
    (hcc : ∀ j, j < 3 → (cenvs j).fromUrlResult = Except.error (f j))
    (hce : ∀ j, j ≤ 3 → isNet (f j) = true) :
    ((denvs 3).createResult = Except.error (e 3) →
      Database.connect isNet denvs rand ⟨none, dcnt⟩ =
        (⟨none, dcnt⟩,
         ⟨Term.raisedRetryExhausted (e 3), 4,
          [computeDelay networkPolicy 0 (rand 0),
           computeDelay networkPolicy 1 (rand 1),
           computeDelay networkPolicy 2 (rand 2)]⟩)) ∧
    (∀ h : H, (denvs 3).createResult = Except.ok h →
      (denvs 3).probeResult = Except.error (e 3) →
      Database.connect isNet denvs rand ⟨none, dcnt⟩ =
        (⟨some h, dcnt + 1⟩,
         ⟨Term.raisedRetryExhausted (e 3), 4,
          [computeDelay networkPolicy 0 (rand 0),
           computeDelay networkPolicy 1 (rand 1),
           computeDelay networkPolicy 2 (rand 2)]⟩)) ∧
    ((cenvs 3).fromUrlResult = Except.error (f 3) →
      Cache.connect isNet cenvs rand ⟨none, ccnt⟩ =
        (⟨none, ccnt⟩,
         ⟨Term.raisedRetryExhausted (f 3), 4,
          [computeDelay networkPolicy 0 (rand 0),
           computeDelay networkPolicy 1 (rand 1),
           computeDelay networkPolicy 2 (rand 2)]⟩)) ∧
    (∀ k : K, (cenvs 3).fromUrlResult = Except.ok k →
      (cenvs 3).pingResult = Except.error (f 3) →
      Cache.connect isNet cenvs rand ⟨none, ccnt⟩ =
        (⟨some k, ccnt + 1⟩,
         ⟨Term.raisedRetryExhausted (f 3), 4,
          [computeDelay networkPolicy 0 (rand 0),
           computeDelay networkPolicy 1 (rand 1),
           computeDelay networkPolicy 2 (rand 2)]⟩)) := by
  have hd0 := hdc 0 (by omega)
  have hd1 := hdc 1 (by omega)
  have hd2 := hdc 2 (by omega)
  have hn0 := hde 0 (by omega)
  have hn1 := hde 1 (by omega)
  have hn2 := hde 2 (by omega)
  have hn3 := hde 3 (by omega)
  have hc0 := hcc 0 (by omega)
  have hc1 := hcc 1 (by omega)
  have hc2 := hcc 2 (by omega)
  have hm0 := hce 0 (by omega)
  have hm1 := hce 1 (by omega)
  have hm2 := hce 2 (by omega)
  have hm3 := hce 3 (by omega)
  refine ⟨?_, ?_, ?_, ?_⟩
  · intro h3
    norm_num [Database.connect, retryWithBackoffS, retryLoopS,
      databaseConnectBody, networkPolicy, hd0, hd1, hd2, h3,
      hn0, hn1, hn2, hn3]
  · intro h hok3 hpr3
    norm_num [Database.connect, retryWithBackoffS, retryLoopS,
      databaseConnectBody, networkPolicy, hd0, hd1, hd2, hok3, hpr3,
      hn0, hn1, hn2, hn3]
  · intro h3
    norm_num [Cache.connect, retryWithBackoffS, retryLoopS,
      cacheConnectBody, networkPolicy, hc0, hc1, hc2, h3,
      hm0, hm1, hm2, hm3]
  · intro k hok3 hpg3
    norm_num [Cache.connect, retryWithBackoffS, retryLoopS,
      cacheConnectBody, networkPolicy, hc0, hc1, hc2, hok3, hpg3,
      hm0, hm1, hm2, hm3]

/-- Witness for the amended C5, covering all four cases at concrete
inputs (draws all 0, so the three jittered delays are 1/2, 1, 2). -/
theorem c5_exhausted_connect_amended_witness :
    Database.connect (fun _ => true)
        (fun _ => (⟨Except.error 0, Except.ok ()⟩ : DbConnectEnv Nat Unit))
        (fun _ => 0) ⟨none, 0⟩ =
      (⟨none, 0⟩, ⟨Term.raisedRetryExhausted 0, 4, [1/2, 1, 2]⟩) ∧
    Database.connect (fun _ => true)
        (fun k => if k < 3 then (⟨Except.error 0, Except.ok ()⟩ :
                      DbConnectEnv Nat Unit)
                  else ⟨Except.ok (), Except.error 0⟩)
        (fun _ => 0) ⟨none, 0⟩ =
      (⟨some (), 1⟩, ⟨Term.raisedRetryExhausted 0, 4, [1/2, 1, 2]⟩) ∧
    Cache.connect (fun _ => true)
        (fun _ => (⟨Except.error 0, Except.ok (), Except.ok ()⟩ :
          CacheConnectEnv Nat Unit))
        (fun _ => 0) ⟨none, 0⟩ =
      (⟨none, 0⟩, ⟨Term.raisedRetryExhausted 0, 4, [1/2, 1, 2]⟩) ∧
    Cache.connect (fun _ => true)
        (fun k => if k < 3 then (⟨Except.error 0, Except.ok (), Except.ok ()⟩ :
                      CacheConnectEnv Nat Unit)
                  else ⟨Except.ok (), Except.error 0, Except.ok ()⟩)
        (fun _ => 0) ⟨none, 0⟩ =
      (⟨some (), 1⟩, ⟨Term.raisedRetryExhausted 0, 4, [1/2, 1, 2]⟩) := by
  have hA := c5_exhausted_connect_amended (fun _ => true)
    (fun _ => (⟨Except.error 0, Except.ok ()⟩ : DbConnectEnv Nat Unit))
    (fun _ => (⟨Except.error 0, Except.ok (), Except.ok ()⟩ :
      CacheConnectEnv Nat Unit))
    (fun _ => 0) (fun _ => 0) (fun _ => 0) 0 0
    (fun _ _ => rfl) (fun _ _ => rfl) (fun _ _ => rfl) (fun _ _ => rfl)
  have hB := c5_exhausted_connect_amended (fun _ => true)
    (fun k => if k < 3 then (⟨Except.error 0, Except.ok ()⟩ :
        DbConnectEnv Nat Unit)
      else ⟨Except.ok (), Except.error 0⟩)
    (fun k => if k < 3 then (⟨Except.error 0, Except.ok (), Except.ok ()⟩ :
        CacheConnectEnv Nat Unit)
      else ⟨Except.ok (), Except.error 0, Except.ok ()⟩)
    (fun _ => 0) (fun _ => 0) (fun _ => 0) 0 0
    (fun j hj => by simp [hj]) (fun _ _ => rfl)
    (fun j hj => by simp [hj]) (fun _ _ => rfl)
  refine ⟨?_, ?_, ?_, ?_⟩
  · rw [hA.1 rfl]
    norm_num [computeDelay, networkPolicy]
  · rw [hB.2.1 () rfl rfl]
    norm_num [computeDelay, networkPolicy]
  · rw [hA.2.2.1 rfl]
    norm_num [computeDelay, networkPolicy]
  · rw [hB.2.2.2 () rfl rfl]
    norm_num [computeDelay, networkPolicy]

/-- C6 as written is false: `get_database` stores the freshly constructed
instance in the module-level slot BEFORE `init_database` calls connect()
on it, so when connect() fails the exhaustion error propagates but the
registry slot retains the never-connected instance (pool handle unset)
for a later call to observe. -/
theorem c6_failed_init_stores_instance_counterexample :
    (init_database (fun _ => true)
        (fun _ => (⟨Except.error 0, Except.ok ()⟩ : DbConnectEnv Nat Unit))
        (fun _ => 0) none).2.2.term = Term.raisedRetryExhausted 0 ∧
    (init_database (fun _ => true)
        (fun _ => (⟨Except.error 0, Except.ok ()⟩ : DbConnectEnv Nat Unit))
        (fun _ => 0) none).1 = some ⟨none, 0⟩ := by
  constructor <;>
    norm_num [init_database, get_database, Database.connect,
      retryWithBackoffS, retryLoopS, databaseConnectBody, networkPolicy,
      computeDelay]

/-- C6 (amended): for each resource kind, init constructs the manager
and `get_database`/`get_cache` stores it in the registry slot before
connect() runs; when connect() fails the failure propagates unchanged to
the caller, but the slot keeps the (never-connected) instance in whatever
state the failed connect left it, and a later getOrInit returns that
stored instance. -/
theorem c6_init_stores_before_connect_amended {ε H K : Type}
    (isNet : ε → Bool) (denvs : Nat → DbConnectEnv ε H)
    (cenvs : Nat → CacheConnectEnv ε K) (rand : Nat → ℚ)
    (ds : DbState H) (dout : Outcome ε Unit)
    (cs : CacheState K) (cout : Outcome ε Unit)
    (hd : Database.connect isNet denvs rand ⟨none, 0⟩ = (ds, dout))
    (hdfail : (dout.term).isReturned = false)
    (hc : Cache.connect isNet cenvs rand ⟨none, 0⟩ = (cs, cout))
    (hcfail : (cout.term).isReturned = false) :
    (init_database isNet denvs rand none).2.2 = dout ∧
    (init_database isNet denvs rand none).1 = some ds ∧
    (get_database (init_database isNet denvs rand none).1).2 = ds ∧
    (init_cache isNet cenvs rand none).2.2 = cout ∧
    (init_cache isNet cenvs rand none).1 = some cs ∧
    (get_cache (init_cache isNet cenvs rand none).1).2 = cs := by
  simp [init_database, get_database, init_cache, get_cache, hd, hc]

/-- Witness for the amended C6: with every construction attempt failing,
the failed init leaves the exhaustion error as its outcome, the slot
occupied by the never-connected instance, and a later get returning it. -/
theorem c6_init_stores_before_connect_amended_witness :
    (init_database (fun _ => true)
        (fun _ => (⟨Except.error 0, Except.ok ()⟩ : DbConnectEnv Nat Unit))
        (fun _ => 0) none).2.2 =
      ⟨Term.raisedRetryExhausted 0, 4, [1/2, 1, 2]⟩ ∧
    (init_database (fun _ => true)
        (fun _ => (⟨Except.error 0, Except.ok ()⟩ : DbConnectEnv Nat Unit))
        (fun _ => 0) none).1 = some ⟨none, 0⟩ ∧
    (get_database (init_database (fun _ => true)
        (fun _ => (⟨Except.error 0, Except.ok ()⟩ : DbConnectEnv Nat Unit))
        (fun _ => 0) none).1).2 = ⟨none, 0⟩ ∧
    (init_cache (fun _ => true)
        (fun _ => (⟨Except.error 0, Except.ok (), Except.ok ()⟩ :
          CacheConnectEnv Nat Unit))
        (fun _ => 0) none).2.2 =
      ⟨Term.raisedRetryExhausted 0, 4, [1/2, 1, 2]⟩ ∧
    (init_cache (fun _ => true)
        (fun _ => (⟨Except.error 0, Except.ok (), Except.ok ()⟩ :
          CacheConnectEnv Nat Unit))
        (fun _ => 0) none).1 = some ⟨none, 0⟩ ∧
    (get_cache (init_cache (fun _ => true)
        (fun _ => (⟨Except.error 0, Except.ok (), Except.ok ()⟩ :
          CacheConnectEnv Nat Unit))
        (fun _ => 0) none).1).2 = ⟨none, 0⟩ := by
  have hd : Database.connect (fun _ => true)
      (fun _ => (⟨Except.error 0, Except.ok ()⟩ : DbConnectEnv Nat Unit))
      (fun _ => 0) ⟨none, 0⟩ =
      (⟨none, 0⟩, ⟨Term.raisedRetryExhausted 0, 4, [1/2, 1, 2]⟩) := by
    norm_num [Database.connect, retryWithBackoffS, retryLoopS,
      databaseConnectBody, networkPolicy, computeDelay]
  have hc : Cache.connect (fun _ => true)
      (fun _ => (⟨Except.error 0, Except.ok (), Except.ok ()⟩ :
        CacheConnectEnv Nat Unit))
      (fun _ => 0) ⟨none, 0⟩ =
      (⟨none, 0⟩, ⟨Term.raisedRetryExhausted 0, 4, [1/2, 1, 2]⟩) := by
    norm_num [Cache.connect, retryWithBackoffS, retryLoopS,
      cacheConnectBody, networkPolicy, computeDelay]
  have h := c6_init_stores_before_connect_amended (fun _ => true)
    (fun _ => (⟨Except.error 0, Except.ok ()⟩ : DbConnectEnv Nat Unit))
    (fun _ => (⟨Except.error 0, Except.ok (), Except.ok ()⟩ :
      CacheConnectEnv Nat Unit))
    (fun _ => 0) ⟨none, 0⟩ ⟨Term.raisedRetryExhausted 0, 4, [1/2, 1, 2]⟩
    ⟨none, 0⟩ ⟨Term.raisedRetryExhausted 0, 4, [1/2, 1, 2]⟩ hd rfl hc rfl
  exact ⟨h.1, h.2.1, h.2.2.1, h.2.2.2.1, h.2.2.2.2.1, h.2.2.2.2.2⟩

end Agent
